import Mathlib

/-!
Shallow embedding of `torch/_inductor/autotune_process.py`.

The file models, from the source:
* the serializable request data model (`TensorMeta`, `BenchmarkRequest`) and the
  child-side `BenchmarkRequest.benchmark` execution (external collaborators —
  the module loader, the `do_bench` timing primitive, `torch.cuda.synchronize`,
  and `rand_strided` tensor allocation — are represented as recorded calls:
  `Tensor` is the free term algebra of the allocator, and the list of `ExtCall`s
  a run performs is returned explicitly, together with the latency value the
  timing primitive reports, which is an oracle parameter);
* the parent-side worker handle `TuningProcess` with its queues and lifecycle
  (`initialize`/`put`/`get`/`terminate`/`wait`/`clear`/`valid`); queue handles
  hold their current parent-visible contents, the child process handle is
  `Option Unit`, and the ghost field `requestLog` records every message ever
  enqueued on the request channel, in order, so that temporal statements about
  what was sent can be made;
* the child-side message loop (`workloop`, `process_main`) as a function of the
  finite list of requests it manages to pull before the trace ends;
* the pool (`TuningProcessPool`) with `get_device_list`, `target`, `benchmark`
  and pool initialization.  The blocking receive `TuningProcess.get` is driven
  by a trace of `PollEvent`s: each event is the outcome of one bounded
  (1-second) `response_queue.get(timeout=1.0)` poll, namely a delivered
  message, a timeout with the child still running (`exitcode is None`), or a
  timeout with the child exited.  `executor.map` runs `target` on worker
  threads but yields results in task order and each task's result depends only
  on its own worker interaction, so `TuningProcessPool.benchmark` threads the
  dispatches sequentially, each with its own poll trace.
Environment configuration (`config.autotune_multi_device`,
`torch.cuda.device_count()`, the parsed `CUDA_VISIBLE_DEVICES` list) is passed
as explicit parameters.
-/

/-- Python exceptions that the modelled code can raise. -/
inductive PyErr
  | assertionError
  | typeError (msg : String)
  | runtimeError (msg : String)
  deriving DecidableEq

/-- `TensorMeta`: device, dtype, sizes, strides, offset (all resolved to
concrete values at capture time).  Devices and dtypes are identified by codes. -/
structure TensorMeta where
  device : Nat
  dtype : Nat
  sizes : List Nat
  strides : List Nat
  offset : Nat
  deriving DecidableEq

/-- Tensors as the free algebra of the operations the source performs on them:
`rand_strided` allocation (from `TensorMeta.to_tensor`) and selection of a
dim-0 slice `t[i]` (which Python's `tuple(tensor)` iteration produces). -/
inductive Tensor
  | rand_strided (sizes strides : List Nat) (device dtype : Nat) (extra_size : Nat)
  | select0 (t : Tensor) (i : Nat)
  deriving DecidableEq

/-- `TensorMeta.to_tensor`: `rand_strided(sizes, strides, device, dtype, extra_size=offset)`. -/
def TensorMeta.to_tensor (m : TensorMeta) : Tensor :=
  Tensor.rand_strided m.sizes m.strides m.device m.dtype m.offset

/-- The shape of a tensor term (dim-0 selection drops the leading size). -/
def Tensor.sizes : Tensor → List Nat
  | Tensor.rand_strided sizes _ _ _ _ => sizes
  | Tensor.select0 t _ => (Tensor.sizes t).tail

/-- Python `tuple(t)` on a tensor `t`: iterates over the first dimension,
yielding the dim-0 slices `t[0], …, t[n-1]`; iterating a 0-dim tensor raises
`TypeError`. -/
def tupleOfTensor (t : Tensor) : Except PyErr (List Tensor) :=
  match Tensor.sizes t with
  | [] => Except.error (PyErr.typeError "iteration over a 0-d tensor")
  | n :: _ => Except.ok ((List.range n).map (fun i => Tensor.select0 t i))

/-- The `Union[TensorMeta, List[TensorMeta]]` fields of `BenchmarkRequest`. -/
inductive TensorsField
  | single (m : TensorMeta)
  | many (ms : List TensorMeta)
  deriving DecidableEq

/-- `BenchmarkRequest` (the source models only triton template benchmarks).
`extra_args` elements are the values Python's `*self.extra_args` splat yields. -/
structure BenchmarkRequest where
  module_path : String
  module_cache_key : String
  kernel_name : String
  grid : List Int
  extra_args : List String
  num_stages : Int
  num_warps : Int
  input_tensors : TensorsField
  output_tensor : TensorsField
  deriving DecidableEq

/-- A record of one invocation of the resolved kernel entry point:
`run(*input_tensors, output_tensor, *extra_args, grid=grid,
num_stages=num_stages, num_warps=num_warps)` for the module resolved from
`(module_cache_key, module_path)` and `kernel_name`. -/
structure KernelInvocation where
  module_cache_key : String
  module_path : String
  kernel_name : String
  inputs : List Tensor
  output : Tensor
  extra_args : List String
  grid : List Int
  num_stages : Int
  num_warps : Int
  deriving DecidableEq

/-- External-collaborator calls as recorded events: the module loader
(`PyCodeCache.load_by_key_path`), the timing primitive `do_bench` applied to a
worker closure that performs the given kernel invocation, and
`torch.cuda.synchronize()`. -/
inductive ExtCall
  | loadModule (key path : String)
  | do_bench (inv : KernelInvocation)
  | cudaSynchronize
  deriving DecidableEq

/-- Result of a successful `BenchmarkRequest.benchmark` run: the external calls
performed in order and the returned latency (the `do_bench` measurement). -/
structure BenchOutcome where
  calls : List ExtCall
  value : ℚ
  deriving DecidableEq

/-- `BenchmarkRequest.benchmark(*input_tensors, output_tensor=None)`.
`doBenchResult` is the oracle value the external `do_bench` returns.
Mirrors the source: load the module, resolve the entry point; if no output
tensor was supplied, assert no input tensors were either, then build the
inputs — a list of specs is materialized element-wise, while a single
`TensorMeta` spec goes through `tuple(self.input_tensors.to_tensor())`, i.e.
Python tuple-iteration of the materialized tensor — assert the output spec is
a single `TensorMeta` and materialize it; finally time
`run(*input_tensors, output_tensor, *extra_args, grid=…, num_stages=…,
num_warps=…)` with `do_bench` and synchronize the device before returning. -/
def BenchmarkRequest.benchmark (req : BenchmarkRequest) (input_tensors : List Tensor)
    (output_tensor : Option Tensor) (doBenchResult : ℚ) : Except PyErr BenchOutcome :=
  let loadCall := ExtCall.loadModule req.module_cache_key req.module_path
  let finish : List Tensor → Tensor → Except PyErr BenchOutcome := fun inputs outT =>
    Except.ok ⟨[loadCall,
      ExtCall.do_bench ⟨req.module_cache_key, req.module_path, req.kernel_name,
        inputs, outT, req.extra_args, req.grid, req.num_stages, req.num_warps⟩,
      ExtCall.cudaSynchronize], doBenchResult⟩
  match output_tensor with
  | some outT => finish input_tensors outT
  | none =>
    if input_tensors ≠ [] then Except.error PyErr.assertionError
    else
      match (match req.input_tensors with
             | TensorsField.many ms => Except.ok (ms.map TensorMeta.to_tensor)
             | TensorsField.single m => tupleOfTensor (TensorMeta.to_tensor m)) with
      | Except.error e => Except.error e
      | Except.ok inputs =>
        match req.output_tensor with
        | TensorsField.many _ => Except.error PyErr.assertionError
        | TensorsField.single om => finish inputs (TensorMeta.to_tensor om)

/-- A latency value: a finite measurement or the `float("inf")` sentinel. -/
inductive Val
  | inf
  | fin (q : ℚ)
  deriving DecidableEq

/-- Messages the child puts on the response queue: `Pong()` or a benchmark
result. -/
inductive Resp
  | pong
  | result (v : Val)
  deriving DecidableEq

/-- Messages the parent puts on the request queue: the `None` stop sentinel,
`Ping()`, a `BenchmarkRequest`, or an object of any other type (tagged by its
type name, which the child's `RuntimeError` message reports). -/
inductive Msg
  | stopSentinel
  | ping
  | bench (r : BenchmarkRequest)
  | invalid (tag : String)
  deriving DecidableEq

/-- Exceptions that escape `workloop` (and are then logged by `process_main`). -/
inductive ChildErr
  | invalidRequest (tag : String)
  | benchExc (e : PyErr)
  deriving DecidableEq

/-- How a run of the child's work loop over a finite request trace ended. -/
inductive LoopOutcome
  | stopped
  | crashed (err : ChildErr)
  | waiting
  deriving DecidableEq

/-- `TuningProcess.workloop`: pull messages in order; `None` breaks the loop,
`Ping` enqueues a `Pong`, a `BenchmarkRequest` enqueues the result of its
`benchmark()` (whose outcome is given by the `bench` parameter, covering both
a returned value and a raised exception), anything else raises `RuntimeError`.
The result is the list of responses enqueued, in order, and how the loop
ended; an empty remaining trace means the loop is still blocked in
`request_queue.get()`. -/
def workloop (bench : BenchmarkRequest → Except PyErr Val) : List Msg → List Resp × LoopOutcome
  | [] => ([], LoopOutcome.waiting)
  | Msg.stopSentinel :: _ => ([], LoopOutcome.stopped)
  | Msg.ping :: rest =>
    let r := workloop bench rest
    (Resp.pong :: r.1, r.2)
  | Msg.bench req :: rest =>
    match bench req with
    | Except.ok v =>
      let r := workloop bench rest
      (Resp.result v :: r.1, r.2)
    | Except.error e => ([], LoopOutcome.crashed (ChildErr.benchExc e))
  | Msg.invalid tag :: _ => ([], LoopOutcome.crashed (ChildErr.invalidRequest tag))

/-- Observable outcome of the child process entry point: either the child
exited (`process_main` returned, after logging a fault if `workloop` raised),
or it is still blocked waiting for more requests. -/
inductive ChildOutcome
  | exited (responses : List Resp) (loggedFault : Option ChildErr)
  | stillWaiting (responses : List Resp)
  deriving DecidableEq

/-- `TuningProcess.process_main`: restricts the visible device (an OS-level
environment effect with no further parent-visible state here) and runs
`workloop`, logging any exception; when `workloop` ends for any reason the
child process exits. -/
def TuningProcess.process_main (bench : BenchmarkRequest → Except PyErr Val)
    (device : Option Int) (reqs : List Msg) : ChildOutcome :=
  match workloop bench reqs with
  | (rs, LoopOutcome.stopped) => ChildOutcome.exited rs none
  | (rs, LoopOutcome.crashed e) => ChildOutcome.exited rs (some e)
  | (rs, LoopOutcome.waiting) => ChildOutcome.stillWaiting rs

/-- `TuningProcess`: the parent-side worker handle.  `requestLog` is a ghost
history of every message ever enqueued on the request channel. -/
structure TuningProcess where
  device : Option Int
  process : Option Unit
  request_queue : Option (List Msg)
  response_queue : Option (List Resp)
  requestLog : List Msg
  deriving DecidableEq

/-- A freshly constructed `TuningProcess(device=device)`. -/
def TuningProcess.mkNew (device : Option Int) : TuningProcess :=
  ⟨device, none, none, none, []⟩

/-- `TuningProcess.valid`: all three handles are set. -/
def TuningProcess.valid (tp : TuningProcess) : Bool :=
  tp.process.isSome && tp.request_queue.isSome && tp.response_queue.isSome

/-- `TuningProcess.clear`: reset to the uninitialized state. -/
def TuningProcess.clear (tp : TuningProcess) : TuningProcess :=
  { tp with process := none, request_queue := none, response_queue := none }

/-- `TuningProcess.initialize`: no-op when valid; otherwise create fresh
request/response queues, spawn the child process and start it. -/
def TuningProcess.init (tp : TuningProcess) : TuningProcess :=
  if tp.valid then tp
  else { tp with process := some (), request_queue := some [], response_queue := some [] }

/-- `TuningProcess.put`: re-initialize if needed (in case of a prior crash),
assert the request queue exists (always true after `initialize`; see
`c9_put_respawns`), and enqueue the message. -/
def TuningProcess.put (tp : TuningProcess) (obj : Msg) : TuningProcess :=
  let t := TuningProcess.init tp
  { t with request_queue := some ((t.request_queue.getD []) ++ [obj]),
           requestLog := t.requestLog ++ [obj] }

/-- One bounded poll of `response_queue.get(timeout=1.0)` as the parent
observes it: a message arrived; or `queue.Empty` was raised and
`process.exitcode` was `None` (child still running); or `queue.Empty` was
raised and the child had exited with the given code. -/
inductive PollEvent
  | msg (m : Resp)
  | timeoutAlive
  | timeoutDead (code : Int)
  deriving DecidableEq

/-- The timeout of each `response_queue.get` slice in `TuningProcess.get`,
in seconds. -/
def pollTimeoutSeconds : ℚ := 1

/-- Result of `TuningProcess.get`, carrying the worker state afterwards. -/
inductive GetResult
  | ok (v : Resp) (tp : TuningProcess)
  | raisedEmpty (tp : TuningProcess)
  | assertFailed (tp : TuningProcess)
  | polling (tp : TuningProcess)
  deriving DecidableEq

/-- The `while True` polling loop inside `TuningProcess.get`, driven by the
poll trace: a delivered message is returned; a timeout with the child alive
polls again; a timeout with the child exited clears the worker and re-raises
`queue.Empty`; an exhausted trace means the loop is still polling. -/
def getLoop (tp : TuningProcess) : List PollEvent → GetResult
  | [] => GetResult.polling tp
  | PollEvent.msg m :: _ => GetResult.ok m tp
  | PollEvent.timeoutAlive :: evs => getLoop tp evs
  | PollEvent.timeoutDead _ :: _ => GetResult.raisedEmpty (TuningProcess.clear tp)

/-- `TuningProcess.get`: assert the process and response queue exist, then run
the bounded-timeout polling loop. -/
def TuningProcess.get (tp : TuningProcess) (evs : List PollEvent) : GetResult :=
  if tp.process.isNone || tp.response_queue.isNone then GetResult.assertFailed tp
  else getLoop tp evs

/-- `TuningProcess.terminate`: if valid, push the `None` stop sentinel on the
request queue (the asserts inside the guarded branch hold whenever the guard
does; see `c10_safe_noop`). -/
def TuningProcess.terminate (tp : TuningProcess) : TuningProcess :=
  if tp.valid then
    { tp with request_queue := some ((tp.request_queue.getD []) ++ [Msg.stopSentinel]),
              requestLog := tp.requestLog ++ [Msg.stopSentinel] }
  else tp

/-- `TuningProcess.wait`: if the process handle exists, join the child (no
parent-visible state beyond its completion) and clear all handles. -/
def TuningProcess.wait (tp : TuningProcess) : TuningProcess :=
  if tp.process.isSome then TuningProcess.clear tp else tp

/-- A `TritonTemplateCaller` as the pool sees it: an identity (Python dict
keys are compared by object identity here) and its benchmark request. -/
structure TritonTemplateCaller where
  id : Nat
  bmreq : Option BenchmarkRequest
  deriving DecidableEq

/-- A `warnings.warn` emission from `target`, naming the failed choice. -/
inductive Warning
  | failedChoice (c : TritonTemplateCaller)
  deriving DecidableEq

/-- `TuningProcessPool`: the idle queue of workers (front = next to be
acquired) and the thread-pool executor, modelled by its worker count. -/
structure TuningProcessPool where
  processes : Option (List TuningProcess)
  executor : Option Nat
  deriving DecidableEq

/-- `TuningProcessPool.get_device_list`: `[None]` when
`config.autotune_multi_device` is off; otherwise the parsed
`CUDA_VISIBLE_DEVICES` list verbatim if set (asserting only
`len(devices) <= count`), else `range(count)`.  `cudaVisibleDevices` is the
environment value already split on commas and int-parsed; `none` models an
assertion failure. -/
def get_device_list (autotuneMultiDevice : Bool) (deviceCount : Nat)
    (cudaVisibleDevices : Option (List Int)) : Option (List (Option Int)) :=
  if !autotuneMultiDevice then some [none]
  else
    match cudaVisibleDevices with
    | some devices =>
      if devices.length ≤ deviceCount then some (devices.map some) else none
    | none => some ((List.range deviceCount).map (fun i => some ((i : Nat) : Int)))

/-- Outcome of one `TuningProcessPool.target` call.  `assertFailed` is a
failure of the two leading asserts (before any worker is acquired);
`blockedOnAcquire` is a thread blocked on an empty idle queue;
`blockedOnGet` is a thread still polling inside `process.get()` (the worker is
held, not yet returned); `doneOk` is a value returned (normal result or the
dead-worker `float("inf")` sentinel, with any warnings emitted); `doneRaised`
is an exception propagating out of the `try` after the `finally` ran. -/
inductive TargetResult
  | assertFailed
  | blockedOnAcquire
  | blockedOnGet
  | doneOk (v : Resp) (warns : List Warning)
  | doneRaised (e : PyErr) (warns : List Warning)
  deriving DecidableEq

/-- `target` executions that completed (returned or raised), i.e. ran their
`finally` block. -/
def TargetResult.isDone : TargetResult → Bool
  | TargetResult.doneOk _ _ => true
  | TargetResult.doneRaised _ _ => true
  | _ => false

/-- `TuningProcessPool.target`: assert the choice has a request and the pool is
initialized; acquire the front worker; `put` the request (transparently
respawning a dead worker); `get` the response under the poll trace `evs`; on
`queue.Empty` warn naming the choice and return the `inf` sentinel; in a
`finally` step, return the worker to the back of the idle queue. -/
def TuningProcessPool.target (pool : TuningProcessPool) (choice : TritonTemplateCaller)
    (evs : List PollEvent) : TargetResult × TuningProcessPool :=
  match choice.bmreq with
  | none => (TargetResult.assertFailed, pool)
  | some req =>
    match pool.processes with
    | none => (TargetResult.assertFailed, pool)
    | some [] => (TargetResult.blockedOnAcquire, pool)
    | some (p :: rest) =>
      let p1 := TuningProcess.put p (Msg.bench req)
      match TuningProcess.get p1 evs with
      | GetResult.ok v tp =>
        (TargetResult.doneOk v [], { pool with processes := some (rest ++ [tp]) })
      | GetResult.raisedEmpty tp =>
        (TargetResult.doneOk (Resp.result Val.inf) [Warning.failedChoice choice],
         { pool with processes := some (rest ++ [tp]) })
      | GetResult.assertFailed tp =>
        (TargetResult.doneRaised PyErr.assertionError [],
         { pool with processes := some (rest ++ [tp]) })
      | GetResult.polling _ =>
        (TargetResult.blockedOnGet, { pool with processes := some rest })

/-- Whether the results dict already has an entry for this key. -/
def hasKey (d : List (TritonTemplateCaller × Resp)) (k : TritonTemplateCaller) : Bool :=
  d.any (fun pr => decide (pr.1 = k))

/-- `results[choice] = result` on an insertion-ordered dict. -/
def dictInsert (d : List (TritonTemplateCaller × Resp)) (k : TritonTemplateCaller)
    (v : Resp) : List (TritonTemplateCaller × Resp) :=
  if hasKey d k then d.map (fun pr => if pr.1 = k then (k, v) else pr)
  else d ++ [(k, v)]

/-- Outcome of `TuningProcessPool.benchmark`: the results mapping, or an
exception propagating to the caller, or a dispatch that never completed. -/
inductive BenchmarkReturn
  | ok (results : List (TritonTemplateCaller × Resp))
  | raised (e : PyErr)
  | blocked
  deriving DecidableEq

/-- The `zip(choices, executor.map(self.target, choices))` loop of
`TuningProcessPool.benchmark`: each task's `target` call runs with its own
poll trace; a raised exception in a `target` surfaces when its result is
consumed and aborts the loop. -/
def benchLoop : TuningProcessPool → List (TritonTemplateCaller × Resp) →
    List (TritonTemplateCaller × List PollEvent) → BenchmarkReturn × TuningProcessPool
  | pool, acc, [] => (BenchmarkReturn.ok acc, pool)
  | pool, acc, (c, evs) :: rest =>
    match TuningProcessPool.target pool c evs with
    | (TargetResult.doneOk v _, pool') => benchLoop pool' (dictInsert acc c v) rest
    | (TargetResult.doneRaised e _, pool') => (BenchmarkReturn.raised e, pool')
    | (TargetResult.assertFailed, pool') => (BenchmarkReturn.raised PyErr.assertionError, pool')
    | (TargetResult.blockedOnAcquire, pool') => (BenchmarkReturn.blocked, pool')
    | (TargetResult.blockedOnGet, pool') => (BenchmarkReturn.blocked, pool')

/-- `TuningProcessPool.benchmark(choices)`: assert the pool is initialized,
then fan the choices out and collect one result per choice into the dict. -/
def TuningProcessPool.benchmark (pool : TuningProcessPool)
    (choices : List TritonTemplateCaller) (envs : List (List PollEvent)) :
    BenchmarkReturn × TuningProcessPool :=
  if pool.processes.isNone || pool.executor.isNone then
    (BenchmarkReturn.raised PyErr.assertionError, pool)
  else benchLoop pool [] (choices.zip envs)

/-- Classify a poll trace that resolves in one step: a single delivered
message, or a dead child detected on the first timeout (which `target` turns
into the `inf` sentinel). -/
def simpleEnvVal : List PollEvent → Option Resp
  | [PollEvent.msg m] => some m
  | PollEvent.timeoutDead _ :: _ => some (Resp.result Val.inf)
  | _ => none

/-- The result `target` produces for a simple poll trace. -/
def envResult (evs : List PollEvent) : Resp :=
  (simpleEnvVal evs).getD (Resp.result Val.inf)

/-- One worker as `TuningProcessPool.initialize` prepares it:
`p = TuningProcess(device); p.initialize(); p.put(Ping())`. -/
def pingWorker (d : Option Int) : TuningProcess :=
  TuningProcess.put (TuningProcess.init (TuningProcess.mkNew d)) Msg.ping

/-- The warm-up check `assert isinstance(p.get(), Pong)` under a poll trace. -/
def handshakePong (tp : TuningProcess) (evs : List PollEvent) : Bool :=
  match TuningProcess.get tp evs with
  | GetResult.ok Resp.pong _ => true
  | _ => false

/-- `TuningProcessPool.initialize`: assert `(processes is None) == (executor is
None)`; return unchanged if already initialized; otherwise enumerate devices,
spawn one pinged worker per device, require every warm-up `get` to yield a
`Pong` (each under its own poll trace), and size the executor to the device
count.  `none` covers every way initialization fails to complete (a failed
assert, a crashed or unresponsive warm-up).  The process-exit hook
registration has no parent-visible state beyond a global flag and is not
modelled. -/
def TuningProcessPool.init (pool : TuningProcessPool) (autotuneMultiDevice : Bool)
    (deviceCount : Nat) (cudaVisibleDevices : Option (List Int))
    (envs : List (List PollEvent)) : Option TuningProcessPool :=
  if pool.processes.isNone != pool.executor.isNone then none
  else if pool.processes.isSome then some pool
  else
    match get_device_list autotuneMultiDevice deviceCount cudaVisibleDevices with
    | none => none
    | some devices =>
      let workers := devices.map pingWorker
      if envs.length = workers.length ∧ (workers.zip envs).all (fun pe => handshakePong pe.1 pe.2)
      then some ⟨some workers, some devices.length⟩
      else none

/-! Concrete instances used by witnesses and counterexamples. -/

/-- A concrete benchmark request with a list of input specs. -/
def req0 : BenchmarkRequest :=
  ⟨"/tmp/mod.py", "key0", "kern0", [64], ["xn"], 1, 4,
   TensorsField.many [⟨0, 0, [2], [1], 0⟩], TensorsField.single ⟨0, 0, [2], [1], 0⟩⟩

/-- A fresh, unstarted worker. -/
def worker0 : TuningProcess := TuningProcess.mkNew none

/-- A worker after `initialize()`. -/
def workerReady : TuningProcess := TuningProcess.init worker0

/-- Concrete choices. -/
def choiceA : TritonTemplateCaller := ⟨0, some req0⟩

def choiceB : TritonTemplateCaller := ⟨1, some req0⟩

def choiceC : TritonTemplateCaller := ⟨2, some req0⟩

/-- A pool with one idle worker. -/
def pool1 : TuningProcessPool := ⟨some [worker0], some 1⟩

/-- A pool with two idle workers. -/
def pool2 : TuningProcessPool := ⟨some [worker0, TuningProcess.mkNew none], some 2⟩

/-- The worker state after a dead child was detected during `get`. -/
def deadTP : TuningProcess :=
  TuningProcess.clear (TuningProcess.put worker0 (Msg.bench req0))

/-- A single (non-list) input spec of shape `[2]`. -/
def metaSingle : TensorMeta := ⟨0, 0, [2], [1], 0⟩

/-- A concrete output spec. -/
def metaOut : TensorMeta := ⟨0, 0, [2], [1], 0⟩

/-- A request whose `input_tensors` is a single `TensorMeta`. -/
def reqSingleInput : BenchmarkRequest :=
  ⟨"/tmp/mod.py", "key1", "kern1", [8], ["xn"], 2, 4,
   TensorsField.single metaSingle, TensorsField.single metaOut⟩

/-- A 0-dimensional single input spec. -/
def meta0d : TensorMeta := ⟨0, 0, [], [], 0⟩

/-- A request whose single input spec is 0-dimensional. -/
def reqZeroDim : BenchmarkRequest :=
  ⟨"/tmp/mod.py", "key2", "kern2", [8], [], 2, 4,
   TensorsField.single meta0d, TensorsField.single metaOut⟩

/-- Poll traces for a three-task dispatch where the second task's child dies. -/
def envsW : List (List PollEvent) :=
  [[PollEvent.msg (Resp.result (Val.fin 5))],
   [PollEvent.timeoutDead 0],
   [PollEvent.msg (Resp.result (Val.fin 7))]]

/-! Helper lemmas. -/

/-- A valid worker has all three handles. -/
theorem tp_valid_parts (tp : TuningProcess) (h : tp.valid = true) :
    tp.process.isSome = true ∧ tp.request_queue.isSome = true ∧
    tp.response_queue.isSome = true := by
  unfold TuningProcess.valid at h
  rw [Bool.and_eq_true, Bool.and_eq_true] at h
  exact ⟨h.1.1, h.1.2, h.2⟩

/-- `initialize` always results in a valid worker. -/
theorem tp_init_valid (tp : TuningProcess) : (TuningProcess.init tp).valid = true := by
  unfold TuningProcess.init
  cases h : tp.valid with
  | false => simp [h, TuningProcess.valid]
  | true => simp [h]

/-- `initialize` does not enqueue anything on the request channel. -/
theorem tp_init_log (tp : TuningProcess) :
    (TuningProcess.init tp).requestLog = tp.requestLog := by
  unfold TuningProcess.init
  cases h : tp.valid <;> simp [h]

/-- `put` always leaves the worker valid. -/
theorem tp_put_valid (tp : TuningProcess) (obj : Msg) :
    (TuningProcess.put tp obj).valid = true := by
  unfold TuningProcess.put
  have h := tp_init_valid tp
  have hp := (tp_valid_parts _ h).1
  have hr := (tp_valid_parts _ h).2.2
  unfold TuningProcess.valid
  simp [hp, hr]

/-- Appending a fresh key to the dict. -/
theorem hasKey_append (d : List (TritonTemplateCaller × Resp)) (k k' : TritonTemplateCaller)
    (v : Resp) : hasKey (d ++ [(k', v)]) k = (hasKey d k || decide (k' = k)) := by
  unfold hasKey
  simp [List.any_append]

/-- Inserting an absent key appends it. -/
theorem dictInsert_append (d : List (TritonTemplateCaller × Resp)) (k : TritonTemplateCaller)
    (v : Resp) (h : hasKey d k = false) : dictInsert d k v = d ++ [(k, v)] := by
  unfold dictInsert
  simp [h]

/-- `target` on a nonempty pool under a simple poll trace completes with the
trace's value and returns the worker to the rear of the idle queue. -/
theorem target_simple (pool : TuningProcessPool) (choice : TritonTemplateCaller)
    (req : BenchmarkRequest) (p : TuningProcess) (rest : List TuningProcess)
    (evs : List PollEvent) (v : Resp)
    (hp : pool.processes = some (p :: rest)) (hc : choice.bmreq = some req)
    (hv : simpleEnvVal evs = some v) :
    ∃ (tp : TuningProcess) (ws : List Warning),
      TuningProcessPool.target pool choice evs
        = (TargetResult.doneOk v ws, { pool with processes := some (rest ++ [tp]) }) := by
  have hval := tp_put_valid p (Msg.bench req)
  obtain ⟨u, hu⟩ := Option.isSome_iff_exists.mp (tp_valid_parts _ hval).1
  obtain ⟨rq, hrq⟩ := Option.isSome_iff_exists.mp (tp_valid_parts _ hval).2.2
  rcases evs with _ | ⟨e, evs'⟩
  · simp [simpleEnvVal] at hv
  · rcases e with m | _ | code
    · rcases evs' with _ | ⟨e2, evs''⟩
      · simp [simpleEnvVal] at hv
        subst hv
        refine ⟨TuningProcess.put p (Msg.bench req), [], ?_⟩
        unfold TuningProcessPool.target
        rw [hc, hp]
        simp [TuningProcess.get, hu, hrq, getLoop]
      · simp [simpleEnvVal] at hv
    · simp [simpleEnvVal] at hv
    · simp [simpleEnvVal] at hv
      subst hv
      refine ⟨TuningProcess.clear (TuningProcess.put p (Msg.bench req)),
        [Warning.failedChoice choice], ?_⟩
      unfold TuningProcessPool.target
      rw [hc, hp]
      simp [TuningProcess.get, hu, hrq, getLoop]

/-- Mapping the per-pair result over a zip. -/
theorem zip_map_envResult : ∀ (l1 : List TritonTemplateCaller) (l2 : List (List PollEvent)),
    (l1.zip l2).map (fun pr => (pr.1, envResult pr.2)) = l1.zip (l2.map envResult)
  | [], _ => by simp
  | _ :: _, [] => by simp
  | a :: l1, b :: l2 => by simp [zip_map_envResult l1 l2]

/-- The dispatch loop over simple poll traces collects one result per task, in
task order, never raises, and keeps the idle queue nonempty. -/
theorem benchLoop_simple : ∀ (pairs : List (TritonTemplateCaller × List PollEvent))
    (pool : TuningProcessPool) (ps : List TuningProcess)
    (acc : List (TritonTemplateCaller × Resp)),
    pool.processes = some ps → ps ≠ [] →
    (∀ pr ∈ pairs, pr.1.bmreq.isSome = true ∧ (simpleEnvVal pr.2).isSome = true) →
    (pairs.map Prod.fst).Nodup →
    (∀ pr ∈ pairs, hasKey acc pr.1 = false) →
    ∃ (pool₂ : TuningProcessPool) (ps₂ : List TuningProcess),
      benchLoop pool acc pairs
        = (BenchmarkReturn.ok (acc ++ pairs.map (fun pr => (pr.1, envResult pr.2))), pool₂)
      ∧ pool₂.processes = some ps₂ ∧ ps₂ ≠ [] := by
  intro pairs
  induction pairs with
  | nil =>
    intro pool ps acc hp hne _ _ _
    exact ⟨pool, ps, by simp [benchLoop], hp, hne⟩
  | cons hd rest ih =>
    intro pool ps acc hp hne hin hnd hdisj
    obtain ⟨c, evs⟩ := hd
    rcases ps with _ | ⟨p, ps'⟩
    · exact absurd rfl hne
    obtain ⟨hbm, hse⟩ := hin (c, evs) (List.mem_cons_self _ _)
    obtain ⟨req, hreq⟩ := Option.isSome_iff_exists.mp hbm
    obtain ⟨v, hv⟩ := Option.isSome_iff_exists.mp hse
    obtain ⟨tp, ws, htgt⟩ := target_simple pool c req p ps' evs v hp hreq hv
    have hkey : hasKey acc c = false := hdisj (c, evs) (List.mem_cons_self _ _)
    have hcnot : c ∉ rest.map Prod.fst := by
      have := hnd
      simp only [List.map_cons] at this
      exact (List.nodup_cons.mp this).1
    have hdisj' : ∀ pr ∈ rest, hasKey (acc ++ [(c, v)]) pr.1 = false := by
      intro pr hpr
      rw [hasKey_append]
      have h1 : hasKey acc pr.1 = false := hdisj pr (List.mem_cons_of_mem _ hpr)
      have h2 : c ≠ pr.1 := by
        intro hEq
        exact hcnot (hEq ▸ List.mem_map_of_mem Prod.fst hpr)
      simp [h1, h2]
    have hnd' : (rest.map Prod.fst).Nodup := by
      have := hnd
      simp only [List.map_cons] at this
      exact (List.nodup_cons.mp this).2
    have hin' : ∀ pr ∈ rest, pr.1.bmreq.isSome = true ∧ (simpleEnvVal pr.2).isSome = true :=
      fun pr hpr => hin pr (List.mem_cons_of_mem _ hpr)
    obtain ⟨pool₂, ps₂, heq, hps₂, hne₂⟩ :=
      ih { pool with processes := some (ps' ++ [tp]) } (ps' ++ [tp]) (acc ++ [(c, v)])
        rfl (by simp) hin' hnd' hdisj'
    refine ⟨pool₂, ps₂, ?_, hps₂, hne₂⟩
    have hstep : benchLoop pool acc ((c, evs) :: rest)
        = benchLoop { pool with processes := some (ps' ++ [tp]) } (dictInsert acc c v) rest := by
      simp [benchLoop, htgt]
    rw [hstep, dictInsert_append acc c v hkey, heq]
    have hval : envResult evs = v := by simp [envResult, hv]
    simp [hval, List.append_assoc]

/-- A pool worker keeps the device it was created for. -/
theorem pingWorker_device (d : Option Int) : (pingWorker d).device = d := rfl

/-- A successful pool initialization from an uninitialized pool installs
exactly the per-device worker list built over the selected devices. -/
theorem pool_init_shape (pool pool' : TuningProcessPool) (amd : Bool) (count : Nat)
    (cvd : Option (List Int)) (envs : List (List PollEvent)) (devices : List (Option Int))
    (hfresh : pool.processes = none)
    (hdl : get_device_list amd count cvd = some devices)
    (hrun : TuningProcessPool.init pool amd count cvd envs = some pool') :
    pool'.processes = some (devices.map pingWorker) := by
  unfold TuningProcessPool.init at hrun
  cases hex : pool.executor with
  | some k => simp [hfresh, hex] at hrun
  | none =>
    simp only [hfresh, hex, Option.isNone_none, bne_self_eq_false, Bool.false_eq_true,
      if_false, Option.isSome_none, if_neg] at hrun
    rw [hdl] at hrun
    dsimp only at hrun
    by_cases hguard : envs.length = (devices.map pingWorker).length ∧
        ((devices.map pingWorker).zip envs).all (fun pe => handshakePong pe.1 pe.2)
    · rw [if_pos hguard] at hrun
      rw [← Option.some.inj hrun]
    · rw [if_neg hguard] at hrun
      exact absurd hrun (by simp)

/-! Claim theorems. -/

/-- C1: in `TuningProcessPool.target`, when the worker's `get` signals a dead
child (the timed-out receive re-raised `queue.Empty` because the child
exited), `target` emits a warning identifying the offending choice and returns
the `float("inf")` sentinel; and in every completed execution of `target` —
normal return, dead-worker sentinel return, or any other exception — the
acquired worker is returned to the rear of the pool's idle queue as a final
step. -/
theorem c1_target_dead_and_requeue (pool : TuningProcessPool) (p : TuningProcess)
    (rest : List TuningProcess) (choice : TritonTemplateCaller) (req : BenchmarkRequest)
    (evs : List PollEvent)
    (hp : pool.processes = some (p :: rest)) (hc : choice.bmreq = some req) :
    (∀ tp : TuningProcess,
      TuningProcess.get (TuningProcess.put p (Msg.bench req)) evs = GetResult.raisedEmpty tp →
      TuningProcessPool.target pool choice evs
        = (TargetResult.doneOk (Resp.result Val.inf) [Warning.failedChoice choice],
           { pool with processes := some (rest ++ [tp]) })) ∧
    (TargetResult.isDone (TuningProcessPool.target pool choice evs).1 = true →
      ∃ tp : TuningProcess,
        (TuningProcessPool.target pool choice evs).2.processes = some (rest ++ [tp])) := by
  constructor
  · intro tp hget
    unfold TuningProcessPool.target
    rw [hc, hp]
    simp [hget]
  · intro hdone
    unfold TuningProcessPool.target at hdone ⊢
    rw [hc, hp] at hdone ⊢
    cases hget : TuningProcess.get (TuningProcess.put p (Msg.bench req)) evs <;>
      simp [hget, TargetResult.isDone] at hdone ⊢

/-- Witness for C1: a one-worker pool, a dead child detected on the first
poll: the sentinel is returned with a warning naming the choice, and the
(cleared) worker is back at the rear of the idle queue. -/
theorem c1_witness :
    TuningProcessPool.target pool1 choiceA [PollEvent.timeoutDead 1]
      = (TargetResult.doneOk (Resp.result Val.inf) [Warning.failedChoice choiceA],
         { pool1 with processes := some ([] ++ [deadTP]) }) :=
  (c1_target_dead_and_requeue pool1 worker0 [] choiceA req0 [PollEvent.timeoutDead 1]
    rfl rfl).1 deadTP (by decide)

/-- C2: `TuningProcessPool.benchmark` over distinct choices, each of whose
dispatches resolves (a delivered result or a dead child), returns — without
raising — the mapping that pairs every choice in order with its own result;
dead children contribute the `inf` sentinel (`envResult` of a
`timeoutDead`-headed trace) while the rest keep their delivered values. -/
theorem c2_dispatch_many (pool : TuningProcessPool) (ps : List TuningProcess) (k : Nat)
    (choices : List TritonTemplateCaller) (envs : List (List PollEvent))
    (hp : pool.processes = some ps) (hne : ps ≠ []) (hex : pool.executor = some k)
    (hlen : envs.length = choices.length) (hnd : choices.Nodup)
    (hbm : ∀ c ∈ choices, c.bmreq.isSome = true)
    (hse : ∀ e ∈ envs, (simpleEnvVal e).isSome = true) :
    (TuningProcessPool.benchmark pool choices envs).1
      = BenchmarkReturn.ok (choices.zip (envs.map envResult)) ∧
    (choices.zip (envs.map envResult)).map Prod.fst = choices ∧
    (choices.zip (envs.map envResult)).length = choices.length := by
  have hmapfst : (choices.zip envs).map Prod.fst = choices :=
    List.map_fst_zip choices envs (le_of_eq hlen.symm)
  have h1 : ∀ pr ∈ choices.zip envs,
      pr.1.bmreq.isSome = true ∧ (simpleEnvVal pr.2).isSome = true := by
    intro pr hpr
    obtain ⟨a, b⟩ := pr
    obtain ⟨ha, hb⟩ := List.of_mem_zip hpr
    exact ⟨hbm a ha, hse b hb⟩
  have h2 : ((choices.zip envs).map Prod.fst).Nodup := by rw [hmapfst]; exact hnd
  have h3 : ∀ pr ∈ choices.zip envs, hasKey [] pr.1 = false := fun _ _ => rfl
  obtain ⟨pool₂, ps₂, heq, _, _⟩ := benchLoop_simple (choices.zip envs) pool ps [] hp hne h1 h2 h3
  refine ⟨?_, ?_, ?_⟩
  · unfold TuningProcessPool.benchmark
    rw [hp] at *
    simp [hp, hex, heq, zip_map_envResult]
  · exact List.map_fst_zip choices (envs.map envResult)
      (le_of_eq (by rw [List.length_map, hlen]))
  · rw [List.length_zip, List.length_map, hlen, Nat.min_self]

/-- Witness for C2: three distinct choices on a two-worker pool where the
second task's child dies: the call returns the full mapping without raising. -/
theorem c2_witness :
    (TuningProcessPool.benchmark pool2 [choiceA, choiceB, choiceC] envsW).1
      = BenchmarkReturn.ok ([choiceA, choiceB, choiceC].zip (envsW.map envResult)) :=
  (c2_dispatch_many pool2 [worker0, TuningProcess.mkNew none] 2
    [choiceA, choiceB, choiceC] envsW rfl (by decide) rfl (by decide) (by decide)
    (by decide) (by decide)).1

/-- C3: `TuningProcess.get` polls in repeated bounded 1-second slices: a
delivered message is returned; a timed-out poll with the child still running
(`exitcode is None`) polls again; a timed-out poll with the child exited
clears the process and both queue handles (uninitialized state) and re-raises
the `queue.Empty`, never returning a value. -/
theorem c3_receive_poll (tp : TuningProcess) (evs : List PollEvent) (m : Resp) (code : Int)
    (h1 : tp.process.isSome = true) (h2 : tp.response_queue.isSome = true) :
    TuningProcess.get tp (PollEvent.msg m :: evs) = GetResult.ok m tp ∧
    TuningProcess.get tp (PollEvent.timeoutAlive :: evs) = TuningProcess.get tp evs ∧
    TuningProcess.get tp (PollEvent.timeoutDead code :: evs)
      = GetResult.raisedEmpty (TuningProcess.clear tp) ∧
    (TuningProcess.clear tp).process = none ∧
    (TuningProcess.clear tp).request_queue = none ∧
    (TuningProcess.clear tp).response_queue = none ∧
    pollTimeoutSeconds = 1 := by
  obtain ⟨a, ha⟩ := Option.isSome_iff_exists.mp h1
  obtain ⟨b, hb⟩ := Option.isSome_iff_exists.mp h2
  unfold TuningProcess.get
  simp [ha, hb, getLoop, TuningProcess.clear, pollTimeoutSeconds]

/-- Witness for C3 at a concrete initialized worker. -/
theorem c3_receive_poll_witness :
    TuningProcess.get workerReady (PollEvent.msg Resp.pong :: [])
      = GetResult.ok Resp.pong workerReady ∧
    TuningProcess.get workerReady (PollEvent.timeoutAlive :: [])
      = TuningProcess.get workerReady [] ∧
    TuningProcess.get workerReady (PollEvent.timeoutDead 9 :: [])
      = GetResult.raisedEmpty (TuningProcess.clear workerReady) ∧
    (TuningProcess.clear workerReady).process = none ∧
    (TuningProcess.clear workerReady).request_queue = none ∧
    (TuningProcess.clear workerReady).response_queue = none ∧
    pollTimeoutSeconds = 1 :=
  c3_receive_poll workerReady [] Resp.pong 9 (by decide) (by decide)

/-- C4: the child's work loop handles each pulled message in arrival order:
the `None` stop sentinel ends the loop; a `Ping` is answered by enqueueing a
`Pong`; a `BenchmarkRequest` is answered by enqueueing the value its
`benchmark()` returns; any message of any other type raises, ending the loop,
and `process_main` logs the fault and exits the child (which the parent then
observes as a crash on its next receive). -/
theorem c4_workloop (bench : BenchmarkRequest → Except PyErr Val) (rest : List Msg)
    (r : BenchmarkRequest) (v : Val) (tag : String) :
    workloop bench (Msg.stopSentinel :: rest) = ([], LoopOutcome.stopped) ∧
    workloop bench (Msg.ping :: rest)
      = (Resp.pong :: (workloop bench rest).1, (workloop bench rest).2) ∧
    (bench r = Except.ok v →
      workloop bench (Msg.bench r :: rest)
        = (Resp.result v :: (workloop bench rest).1, (workloop bench rest).2)) ∧
    workloop bench (Msg.invalid tag :: rest)
      = ([], LoopOutcome.crashed (ChildErr.invalidRequest tag)) ∧
    TuningProcess.process_main bench none (Msg.invalid tag :: rest)
      = ChildOutcome.exited [] (some (ChildErr.invalidRequest tag)) := by
  refine ⟨rfl, rfl, ?_, rfl, rfl⟩
  intro h
  simp [workloop, h]

/-- Witness for C4 at a concrete benchmark request and result. -/
theorem c4_workloop_witness :
    workloop (fun _ => Except.ok (Val.fin 1)) (Msg.bench req0 :: [])
      = (Resp.result (Val.fin 1) :: (workloop (fun _ => Except.ok (Val.fin 1)) []).1,
         (workloop (fun _ => Except.ok (Val.fin 1)) []).2) :=
  (c4_workloop (fun _ => Except.ok (Val.fin 1)) [] req0 (Val.fin 1) "str").2.2.1 rfl

/-- C5 counterexample: `TuningProcess.initialize` performs no Ping→Pong
handshake at all.  A fresh worker completes `initialize()` successfully, and
`put` (which re-initializes transparently) then sends it a real benchmark
request as the very first message ever enqueued — no `Ping` precedes it, so
the worker cannot have answered a `Ping` with a `Pong` before the real task
was sent. -/
theorem c5_counterexample :
    (TuningProcess.init (TuningProcess.mkNew none)).valid = true ∧
    (TuningProcess.put (TuningProcess.mkNew none) (Msg.bench req0)).requestLog
      = [Msg.bench req0] ∧
    Msg.ping ∉ (TuningProcess.put (TuningProcess.mkNew none) (Msg.bench req0)).requestLog := by
  decide

/-- C5 (amended): `TuningProcess.initialize` only spawns the child and creates
the queues (no handshake) and is a no-op on an already-valid worker; the
Ping→Pong handshake is performed by `TuningProcessPool.initialize`, which
sends exactly one `Ping` to each freshly created worker and completes only if
each warm-up `get` yields a `Pong` — so every worker in a successfully
initialized pool has `Ping` as the only message ever sent to it and has
answered it with a `Pong`. -/
theorem c5_pool_handshake (pool : TuningProcessPool) (autotuneMultiDevice : Bool)
    (deviceCount : Nat) (cudaVisibleDevices : Option (List Int))
    (envs : List (List PollEvent)) (pool' : TuningProcessPool)
    (workers : List TuningProcess)
    (hrun : TuningProcessPool.init pool autotuneMultiDevice deviceCount cudaVisibleDevices envs
      = some pool')
    (hfresh : pool.processes = none)
    (hw : pool'.processes = some workers) :
    (∀ tp : TuningProcess, tp.valid = true → TuningProcess.init tp = tp) ∧
    (∀ d : Option Int, (TuningProcess.init (TuningProcess.mkNew d)).requestLog = []) ∧
    (∀ i (hi : i < workers.length),
      workers[i].requestLog = [Msg.ping] ∧
      ∃ e : List PollEvent, handshakePong workers[i] e = true) := by
  refine ⟨?_, ?_, ?_⟩
  · intro tp h
    unfold TuningProcess.init
    simp [h]
  · intro d
    rw [tp_init_log]
    rfl
  · unfold TuningProcessPool.init at hrun
    cases hex : pool.executor with
    | some k => simp [hfresh, hex] at hrun
    | none =>
      simp only [hfresh, hex, Option.isNone_none, bne_self_eq_false, Bool.false_eq_true,
        if_false, Option.isSome_none, if_neg] at hrun
      cases hdl : get_device_list autotuneMultiDevice deviceCount cudaVisibleDevices with
      | none => simp [hdl] at hrun
      | some devices =>
        simp only [hdl] at hrun
        by_cases hguard : envs.length = (devices.map pingWorker).length ∧
            ((devices.map pingWorker).zip envs).all (fun pe => handshakePong pe.1 pe.2)
        · rw [if_pos hguard] at hrun
          obtain ⟨hlen, hall⟩ := hguard
          have hpool : pool' = ⟨some (devices.map pingWorker), some devices.length⟩ :=
            (Option.some.inj hrun).symm
          have hwork : workers = devices.map pingWorker := by
            rw [hpool] at hw
            simpa using hw.symm
          intro i hi
          subst hwork
          have hi' : i < devices.length := by simpa using hi
          have hwi : (devices.map pingWorker)[i] = pingWorker devices[i] := by
            simp
          constructor
          · rw [hwi]
            rfl
          · have hie : i < envs.length := by
              rw [hlen]
              simpa using hi
            refine ⟨envs[i], ?_⟩
            have hiz : i < ((devices.map pingWorker).zip envs).length := by
              rw [List.length_zip]
              exact lt_min hi hie
            have hz : ((devices.map pingWorker).zip envs)[i]
                = ((devices.map pingWorker)[i], envs[i]) := by
              simp
            have hmem : ((devices.map pingWorker)[i], envs[i])
                ∈ (devices.map pingWorker).zip envs := by
              rw [← hz]
              exact List.getElem_mem hiz
            exact List.all_eq_true.mp hall _ hmem
        · rw [if_neg hguard] at hrun
          exact absurd hrun (by simp)

/-- Witness for C5 (amended): a one-device pool whose single worker's warm-up
trace delivers a `Pong`; the worker's send log is exactly one `Ping`. -/
theorem c5_pool_handshake_witness :
    ([pingWorker none])[0].requestLog = [Msg.ping] :=
  ((c5_pool_handshake ⟨none, none⟩ false 0 none [[PollEvent.msg Resp.pong]]
      ⟨some [pingWorker none], some 1⟩ [pingWorker none] (by decide) rfl rfl).2.2
    0 (by decide)).1

/-- C6 (code bug, evaluated): when `input_tensors` is a single `TensorMeta`,
`benchmark()` materializes the tensor but then executes
`tuple(self.input_tensors.to_tensor())`, which iterates the tensor — the
kernel is invoked with the tensor's dim-0 slices rather than the tensor
itself, and a 0-dimensional spec raises `TypeError` instead of benchmarking. -/
theorem c6_single_spec_bug :
    BenchmarkRequest.benchmark reqSingleInput [] none 1
      = Except.ok ⟨[ExtCall.loadModule "key1" "/tmp/mod.py",
          ExtCall.do_bench ⟨"key1", "/tmp/mod.py", "kern1",
            [Tensor.select0 (TensorMeta.to_tensor metaSingle) 0,
             Tensor.select0 (TensorMeta.to_tensor metaSingle) 1],
            TensorMeta.to_tensor metaOut, ["xn"], [8], 2, 4⟩,
          ExtCall.cudaSynchronize], 1⟩ ∧
    [Tensor.select0 (TensorMeta.to_tensor metaSingle) 0,
     Tensor.select0 (TensorMeta.to_tensor metaSingle) 1]
      ≠ [TensorMeta.to_tensor metaSingle] ∧
    BenchmarkRequest.benchmark reqZeroDim [] none 1
      = Except.error (PyErr.typeError "iteration over a 0-d tensor") := by
  refine ⟨rfl, by decide, rfl⟩

/-- C7: on a valid (READY) worker, `terminate()` pushes the `None` stop
sentinel — distinct from every real request, and the one message on which the
child's loop exits voluntarily — and the following `wait()` joins the child
and clears all handles, leaving the worker uninitialized. -/
theorem c7_terminate_then_wait (tp : TuningProcess) (q : List Msg)
    (hv : tp.valid = true) (hq : tp.request_queue = some q) :
    (TuningProcess.terminate tp).request_queue = some (q ++ [Msg.stopSentinel]) ∧
    (TuningProcess.wait (TuningProcess.terminate tp)).process = none ∧
    (TuningProcess.wait (TuningProcess.terminate tp)).request_queue = none ∧
    (TuningProcess.wait (TuningProcess.terminate tp)).response_queue = none ∧
    (∀ (bench : BenchmarkRequest → Except PyErr Val) (rest : List Msg),
      workloop bench (Msg.stopSentinel :: rest) = ([], LoopOutcome.stopped)) ∧
    (∀ r : BenchmarkRequest, Msg.stopSentinel ≠ Msg.ping ∧ Msg.stopSentinel ≠ Msg.bench r) := by
  have hp := (tp_valid_parts tp hv).1
  refine ⟨?_, ?_, ?_, ?_, fun _ _ => rfl, fun r => by simp⟩
  · unfold TuningProcess.terminate
    simp [hv, hq]
  all_goals
    unfold TuningProcess.wait TuningProcess.terminate
    simp [hv, hp, TuningProcess.clear]

/-- Witness for C7 at a concrete initialized worker. -/
theorem c7_witness :
    (TuningProcess.terminate workerReady).request_queue = some ([] ++ [Msg.stopSentinel]) :=
  (c7_terminate_then_wait workerReady [] (by decide) rfl).1

/-- C8 counterexample: with multi-device enabled, two physical devices and the
explicit allow-list `[5]`, `get_device_list` accepts the list verbatim even
though device 5 is not among the physically available device indices `[0, 1]`
— the claimed subset check does not exist (only the length is asserted). -/
theorem c8_counterexample :
    get_device_list true 2 (some [5]) = some [some 5] ∧
    ((5 : Int) ∉ (List.range 2).map (fun i => ((i : Nat) : Int))) := by
  decide

/-- C8 (amended): disabled multi-device yields the single null-device
placeholder; an explicit allow-list is used verbatim with only its length
validated (rejected exactly when longer than the physical device count, with
no subset check on its entries); with no allow-list, all physically present
devices are used; and pool initialization creates exactly one worker per
selected device, each pinned to its device. -/
theorem c8_device_list (deviceCount : Nat) (ds : List Int) (env : Option (List Int)) :
    get_device_list false deviceCount env = some [none] ∧
    (ds.length ≤ deviceCount → get_device_list true deviceCount (some ds) = some (ds.map some)) ∧
    (deviceCount < ds.length → get_device_list true deviceCount (some ds) = none) ∧
    get_device_list true deviceCount none
      = some ((List.range deviceCount).map (fun i => some ((i : Nat) : Int))) ∧
    (∀ (pool pool' : TuningProcessPool) (amd : Bool) (cvd : Option (List Int))
       (envs : List (List PollEvent)) (devices : List (Option Int)),
       pool.processes = none →
       get_device_list amd deviceCount cvd = some devices →
       TuningProcessPool.init pool amd deviceCount cvd envs = some pool' →
       ∃ workers : List TuningProcess,
         pool'.processes = some workers ∧
         workers.length = devices.length ∧
         workers.map (fun w => w.device) = devices) := by
  refine ⟨rfl, ?_, ?_, rfl, ?_⟩
  · intro h
    simp [get_device_list, h]
  · intro h
    have h' : ¬ ds.length ≤ deviceCount := Nat.not_le.mpr h
    simp [get_device_list, h']
  · intro pool pool' amd cvd envs devices hfresh hdl hrun
    refine ⟨devices.map pingWorker,
      pool_init_shape pool pool' amd deviceCount cvd envs devices hfresh hdl hrun, ?_, ?_⟩
    · simp
    · rw [List.map_map]
      have h : ((fun w : TuningProcess => w.device) ∘ pingWorker) = fun d => d :=
        funext fun d => rfl
      rw [h]
      simp

/-- Witness for C8 (amended): a length-1 allow-list within a 2-device count is
used verbatim; and a concrete successful pool initialization installs one
worker per selected device, pinned to it. -/
theorem c8_device_list_witness :
    get_device_list true 2 (some [5]) = some ([5].map some) ∧
    ∃ workers : List TuningProcess,
      (⟨some [pingWorker none], some 1⟩ : TuningProcessPool).processes = some workers ∧
      workers.length = [(none : Option Int)].length ∧
      workers.map (fun w => w.device) = [none] :=
  ⟨(c8_device_list 2 [5] none).2.1 (by decide),
   (c8_device_list 0 [] none).2.2.2.2 ⟨none, none⟩ ⟨some [pingWorker none], some 1⟩
     false none [[PollEvent.msg Resp.pong]] [none] rfl rfl (by decide)⟩

/-- C9: `put` first runs `initialize()` — a no-op on a live worker, a
transparent respawn of process and queues on a dead or unstarted one — so its
assert always holds and the message is enqueued on the request channel: a send
never fails merely because the previous child crashed. -/
theorem c9_put_respawns (tp : TuningProcess) (obj : Msg) :
    (TuningProcess.init tp).request_queue.isSome = true ∧
    (TuningProcess.put tp obj).valid = true ∧
    (tp.valid = false → (TuningProcess.put tp obj).request_queue = some [obj]) ∧
    (∀ q : List Msg, tp.request_queue = some q → tp.valid = true →
      (TuningProcess.put tp obj).request_queue = some (q ++ [obj])) := by
  refine ⟨(tp_valid_parts _ (tp_init_valid tp)).2.1, tp_put_valid tp obj, ?_, ?_⟩
  · intro h
    unfold TuningProcess.put TuningProcess.init
    simp [h]
  · intro q hq hv
    unfold TuningProcess.put TuningProcess.init
    simp [hv, hq]

/-- Witness for C9: `put` on a fresh (never-started) worker respawns it and
enqueues the message. -/
theorem c9_witness :
    (TuningProcess.put worker0 Msg.ping).request_queue = some [Msg.ping] :=
  (c9_put_respawns worker0 Msg.ping).2.2.1 (by decide)

/-- C10: on a worker with no handles (unstarted, cleared, or dead),
`terminate()` and `wait()` are safe no-ops, and whenever `terminate`'s guard
passes its internal asserts hold (the guarded handles exist). -/
theorem c10_safe_noop (tp : TuningProcess)
    (h : tp.process = none ∧ tp.request_queue = none ∧ tp.response_queue = none) :
    TuningProcess.terminate tp = tp ∧ TuningProcess.wait tp = tp ∧
    (∀ t2 : TuningProcess, t2.valid = true →
      t2.process.isSome = true ∧ t2.request_queue.isSome = true) := by
  obtain ⟨h1, h2, h3⟩ := h
  refine ⟨?_, ?_, fun t2 hv => ⟨(tp_valid_parts t2 hv).1, (tp_valid_parts t2 hv).2.1⟩⟩
  · unfold TuningProcess.terminate TuningProcess.valid
    simp [h1]
  · unfold TuningProcess.wait
    simp [h1]

/-- Witness for C10 at a concrete fresh worker. -/
theorem c10_witness :
    TuningProcess.terminate worker0 = worker0 ∧ TuningProcess.wait worker0 = worker0 :=
  ⟨(c10_safe_noop worker0 (by decide)).1, (c10_safe_noop worker0 (by decide)).2.1⟩
